import Mathlib

/-!
Shallow embedding of `io_xplane2blender/importer/xplane_imp_cmd_builder.py`:
the stateful OBJ-directive interpreter (`ImpCommandBuilder`), its intermediate
data model (`VT`, `VTTable`, `IntermediateDataref`, `IntermediateAnimation`,
`IntermediateDatablock`, `_AnimBoneStackEntry`) and the finalization pass
(`finalize_intermediate_blocks`, `IntermediateDatablock.build_mesh`,
`IntermediateAnimation.apply_animation`).

Conventions of the embedding:
* Python floats are modelled as rationals; only equality/plumbing of these
  values matters to the verified properties, no rounding behaviour is used.
* Python exceptions (AttributeError, IndexError, KeyError, TypeError,
  ValueError that escapes a handler) abort the parse; a step that raises is
  modelled as returning `none`.  The caller of the builder does not catch these,
  so the partial mutations that precede an exception are unobservable and are
  not modelled.
* `collections.deque` used as a stack (append/pop on the right, `[-1]` top,
  `[-2]` below top) is modelled as a `List` with the top at the head.
* `mathutils.Vector` keys (frozen) are modelled by `Vec3` with decidable
  equality; the `rotations` mapping is modelled as an association list.
* Python aliasing of `IntermediateAnimation` / `IntermediateDatablock`
  objects between the stack and the block list is irrelevant to the stated
  theorems (no theorem observes node animation contents after later stack
  mutations), so values are copied.
-/

/-- A scalar argument value as fed to the builder: a number or a string
(the tokenizer hands the builder values of type `Union[float, int, str]`). -/
inductive PyVal where
  | num (q : ℚ)
  | str (s : String)
deriving DecidableEq, Repr

/-- A 3-component vector (`mathutils.Vector` of length 3). -/
structure Vec3 where
  x : ℚ
  y : ℚ
  z : ℚ
deriving DecidableEq, Repr

/-- Modelled from the spec: the animation kind tags of
`io_xplane2blender.xplane_constants` (that file is outside `src/`); the spec
names the kinds transform | show | hide. -/
def ANIM_TYPE_TRANSFORM : String := "transform"

def ANIM_TYPE_SHOW : String := "show"

def ANIM_TYPE_HIDE : String := "hide"

/-- Embeds `IntermediateDataref` (matches `xplane_props.XPlaneDataref`). -/
structure IntermediateDataref where
  anim_type : String := ANIM_TYPE_TRANSFORM
  loop : ℚ := 0
  path : String := ""
  show_hide_v1 : ℚ := 0
  show_hide_v2 : ℚ := 0
  values : List ℚ := []
deriving DecidableEq, Repr

/-- Embeds `IntermediateAnimation`.  In the source, `rotations` is annotated
`Dict[Vector, List[float]]` but constructed with `field(default_factory=list)`
(an empty list at runtime); we model the value as an association list keyed by
frozen axis vectors, which starts empty — exactly what any dict-style read of
the runtime value observes (every key lookup fails). -/
structure IntermediateAnimation where
  locations : List Vec3 := []
  rotations : List (Vec3 × List ℚ) := []
  xp_dataref : IntermediateDataref := {}
deriving DecidableEq, Repr

/-- Embeds `test_creation_helpers.ParentInfo` — modelled from the spec: a parent
reference by name (the helper lives outside `src/`; its shape is fixed by call
sites in the builder `ParentInfo(name)` / `.parent_info.parent`). -/
structure ParentInfo where
  parent : String
deriving DecidableEq, Repr

/-- Embeds `test_creation_helpers.DatablockInfo` — modelled from the spec: node kind
(`"EMPTY"` or `"MESH"`), display name and optional parent reference (the
helper lives outside `src/`; its shape is fixed by call sites in the builder). -/
structure DatablockInfo where
  datablock_type : String
  name : String
  parent_info : Option ParentInfo := none
deriving DecidableEq, Repr

/-- Embeds `IntermediateDatablock`. -/
structure IntermediateDatablock where
  datablock_info : DatablockInfo
  start_idx : Option ℕ
  count : Option ℕ
  animations_to_apply : List IntermediateAnimation
deriving DecidableEq, Repr

/-- Embeds `VT` after `__post_init__`: 8 fields, each coerced to float where
possible and otherwise kept as the original value (see `postInitField`). -/
structure VT where
  x : PyVal
  y : PyVal
  z : PyVal
  nx : PyVal
  ny : PyVal
  nz : PyVal
  s : PyVal
  t : PyVal
deriving DecidableEq, Repr

/-- Embeds `VTTable`. -/
structure VTTable where
  vertices : List VT := []
  idxes : List ℤ := []
deriving DecidableEq, Repr

/-- Embeds `_AnimBoneStackEntry`. -/
structure AnimBoneStackEntry where
  animation : IntermediateAnimation
  inter_datablock : Option IntermediateDatablock
deriving DecidableEq, Repr

/-- Digit run to a natural number, most significant first. -/
def digitsToNat (l : List Char) : ℕ :=
  l.foldl (fun n c => 10 * n + (c.toNat - 48)) 0

/-- Modelled from the spec: Python `float()` applied to a string (simplified
grammar: optional sign, digits, optional decimal point and fraction digits;
no exponent/inf/nan/whitespace — none of the verified properties depend on
which strings parse, only on the parse-or-keep-original behaviour). -/
def parseFloatQ (s : String) : Option ℚ :=
  let cs := s.data
  let sgn : ℚ := match cs.head? with
    | some c => if c = '-' then -1 else 1
    | none => 1
  let cs := match cs.head? with
    | some c => if c = '-' ∨ c = '+' then cs.drop 1 else cs
    | none => cs
  let intPart := cs.takeWhile (fun c => c.isDigit)
  let rest := cs.dropWhile (fun c => c.isDigit)
  match rest with
  | [] => if intPart.isEmpty then none else some (sgn * digitsToNat intPart)
  | c :: frac =>
    if c = '.' ∧ frac.all (fun d => d.isDigit) ∧ (intPart ≠ [] ∨ frac ≠ []) then
      some (sgn * ((digitsToNat intPart : ℚ) + (digitsToNat frac : ℚ) / (10 ^ frac.length)))
    else none

/-- Python `float(v)` on a builder scalar: numbers pass through, strings are
parsed (raising `ValueError`, i.e. `none`, when malformed). -/
def pyFloat (v : PyVal) : Option ℚ :=
  match v with
  | .num q => some q
  | .str s => parseFloatQ s

/-- One field of `VT.__post_init__`: `float(value)` with `ValueError` caught,
in which case the original value is kept (after printing a message). -/
def postInitField (v : PyVal) : PyVal :=
  match pyFloat v with
  | some q => .num q
  | none => v

/-- Models `VT(...)` construction including the per-field coercion of `__post_init__`. -/
def VT.mkPost (a b c d e f g h : PyVal) : VT :=
  ⟨postInitField a, postInitField b, postInitField c, postInitField d,
   postInitField e, postInitField f, postInitField g, postInitField h⟩

/-- The directive stream: `(directive, *args, name_hint)` as dispatched by
`ImpCommandBuilder.build_cmd`, with the argument shapes the docstring of the builder
requires ("every arg, in order, correctly typed"). -/
inductive Directive where
  | VT (args : List PyVal)
  | IDX (i : ℤ)
  | IDX10 (idxs : List ℤ)
  | TRIS (start_idx count : ℕ) (name_hint : String)
  | ANIM_begin
  | ANIM_end
  | ANIM_trans_begin (dataref_path : String)
  | ANIM_trans_key (value : ℚ) (location : Vec3)
  | ANIM_trans_end
  | ANIM_hide (v1 v2 : ℚ) (dataref_path : String)
  | ANIM_show (v1 v2 : ℚ) (dataref_path : String)
  | ANIM_rotate_begin (axis : Vec3) (dataref_path : String)
  | ANIM_rotate_key (value : ℚ) (degrees : ℚ)
  | ANIM_rotate_end
  | ANIM_keyframe_loop (loop : ℚ)
  | unknown
deriving DecidableEq, Repr

/-- Embeds `self.root_intermediate_datablock`: the synthetic `"ROOT"` empty, created
once in `__init__` and never reassigned. -/
def rootBlock : IntermediateDatablock :=
  { datablock_info := { datablock_type := "EMPTY", name := "ROOT" }
    start_idx := none
    count := none
    animations_to_apply := [] }

/-- The mutable state of one `ImpCommandBuilder` instance.  `blocks` is
`self._blocks` (insertion order, synthetic root first), `anim_stack` is
`self._anim_intermediate_stack` (top at head), `anim_count` is
`self._anim_count` (top at head), `last_axis` is `self._last_axis`. -/
structure ImpCommandBuilder where
  vt_table : VTTable := {}
  blocks : List IntermediateDatablock := [rootBlock]
  last_axis : Option Vec3 := none
  anim_stack : List AnimBoneStackEntry := []
  anim_count : List ℕ := []
deriving DecidableEq, Repr

/-- The state right after `__init__`. -/
def initState : ImpCommandBuilder := {}

/-- Association-list read of the `rotations` mapping (`self.rotations[key]`
on a dict; a missing key is a `KeyError`, i.e. `none`). -/
def lookupRot (m : List (Vec3 × List ℚ)) (v : Vec3) : Option (List ℚ) :=
  (m.find? (fun p => p.1 == v)).map (fun p => p.2)

/-- Association-list update of the `rotations` mapping at an existing key. -/
def updateRot (m : List (Vec3 × List ℚ)) (v : Vec3) (l : List ℚ) :
    List (Vec3 × List ℚ) :=
  m.map (fun p => if p.1 == v then (p.1, l) else p)

/-- The local helper `make_empty_as_needed` of `build_cmd`: when the animation
stack is non-empty and the top frame has no bound datablock, create an empty
node whose parent is read from the very same (just checked to be absent)
binding — so the `some` branch of the inner read is dead and the parent is
always the synthetic root — bind it to the top frame and append it to the
block list. -/
def make_empty_as_needed (s : ImpCommandBuilder) : ImpCommandBuilder :=
  match s.anim_stack with
  | [] => s
  | e :: rest =>
    if e.inter_datablock.isSome then s
    else
      let parentName :=
        match e.inter_datablock with
        | some db => db.datablock_info.name
        | none => rootBlock.datablock_info.name
      let empt : IntermediateDatablock :=
        { datablock_info :=
            { datablock_type := "EMPTY"
              name := "next_empty_name"
              parent_info := some ⟨parentName⟩ }
          start_idx := none
          count := none
          animations_to_apply := [e.animation] }
      { s with
          anim_stack := { e with inter_datablock := some empt } :: rest
          blocks := s.blocks ++ [empt] }

/-- The mesh `IntermediateDatablock` a `TRIS` directive creates. -/
def trisBlock (parentName : String) (anims : List IntermediateAnimation)
    (start_idx count : ℕ) (name_hint : String) : IntermediateDatablock :=
  { datablock_info :=
      { datablock_type := "MESH"
        name := if name_hint = "" then "next_obj_name" else name_hint
        parent_info := some ⟨parentName⟩ }
    start_idx := some start_idx
    count := some count
    animations_to_apply := anims }

/-- The `TRIS` case of `build_cmd`: `should_apply_animation` is the Python
truthiness of `self._current_animation and not
self._current_intermediate_datablock` (short-circuit: `False` on an empty
stack); the parent is `self._anim_intermediate_stack[-2].inter_datablock`
with `IndexError` falling back to the root — but if that entry exists and is
unbound (`None`), reading `.datablock_info.name` on it raises
(`AttributeError`, modelled `none`). -/
def cmdTRIS (s : ImpCommandBuilder) (start_idx count : ℕ)
    (name_hint : String) : Option ImpCommandBuilder :=
  let should_apply : Bool :=
    match s.anim_stack with
    | [] => false
    | e :: _ => e.inter_datablock.isNone
  let parentOpt : Option IntermediateDatablock :=
    match s.anim_stack.get? 1 with
    | none => some rootBlock
    | some e2 => e2.inter_datablock
  match parentOpt with
  | none => none
  | some parent =>
    let anims : List IntermediateAnimation :=
      if should_apply then
        match s.anim_stack with
        | e :: _ => [e.animation]
        | [] => []
      else []
    let nb := trisBlock parent.datablock_info.name anims start_idx count name_hint
    let s1 := { s with blocks := s.blocks ++ [nb] }
    if should_apply then
      some { s1 with
              anim_stack :=
                match s1.anim_stack with
                | e :: rest => { e with inter_datablock := some nb } :: rest
                | [] => [] }
    else some s1

/-- The `ANIM_trans_begin` case of `build_cmd`: lazily materialize an empty
for the current top frame, push a fresh frame, give it a transform-kind
dataref, and bump the innermost open-count (`IndexError`, i.e. `none`, when
no block is open). -/
def cmdTransBegin (s : ImpCommandBuilder) (dataref_path : String) :
    Option ImpCommandBuilder :=
  let s1 := make_empty_as_needed s
  let newEntry : AnimBoneStackEntry :=
    { animation :=
        { locations := []
          rotations := []
          xp_dataref :=
            { anim_type := ANIM_TYPE_TRANSFORM
              loop := 0
              path := dataref_path
              show_hide_v1 := 0
              show_hide_v2 := 0
              values := [] } }
      inter_datablock := none }
  let s2 := { s1 with anim_stack := newEntry :: s1.anim_stack }
  match s2.anim_count with
  | [] => none
  | c :: rest => some { s2 with anim_count := (c + 1) :: rest }

/-- The `ANIM_trans_key` case: append the location to the animation of the current
frame and the driving value to its dataref (`AttributeError`, i.e.
`none`, when no frame is open). -/
def cmdTransKey (s : ImpCommandBuilder) (value : ℚ) (location : Vec3) :
    Option ImpCommandBuilder :=
  match s.anim_stack with
  | [] => none
  | e :: rest =>
    let a := e.animation
    let a' :=
      { a with
          locations := a.locations ++ [location]
          xp_dataref := { a.xp_dataref with values := a.xp_dataref.values ++ [value] } }
    some { s with anim_stack := { e with animation := a' } :: rest }

/-- The `ANIM_hide` / `ANIM_show` case: overwrite the kind of the current dataref
(`directive.split("_")[1]`), path and thresholds. -/
def cmdHideShow (s : ImpCommandBuilder) (kind : String) (v1 v2 : ℚ)
    (dataref_path : String) : Option ImpCommandBuilder :=
  match s.anim_stack with
  | [] => none
  | e :: rest =>
    let a := e.animation
    let a' :=
      { a with
          xp_dataref :=
            { a.xp_dataref with
                anim_type := kind
                path := dataref_path
                show_hide_v1 := v1
                show_hide_v2 := v2 } }
    some { s with anim_stack := { e with animation := a' } :: rest }

/-- The `ANIM_rotate_begin` case.  The source sets `self._last_axis` and then
calls `self._current_animation.xp_dataref.append(...)`; `xp_dataref` is a
single `IntermediateDataref` (a dataclass with no `append`), so this raises
`AttributeError` on every invocation (on an empty stack it is
`None.xp_dataref` that raises first).  The `self._anim_count[-1] += 1` below
the call is never reached; the parse aborts. -/
def cmdRotateBegin (_s : ImpCommandBuilder) (_axis : Vec3)
    (_dataref_path : String) : Option ImpCommandBuilder :=
  none

/-- The `ANIM_rotate_key` case: `self._current_animation.rotations[
self._last_axis.freeze()].append(degrees)` — `AttributeError` when no frame
is open or no axis is active; otherwise a dict-style read of `rotations`,
whose runtime value is an empty container (see `IntermediateAnimation`), so
the key lookup raises and the parse aborts; the appends are modelled for the
(unreachable) key-present case. -/
def cmdRotateKey (s : ImpCommandBuilder) (value : ℚ) (degrees : ℚ) :
    Option ImpCommandBuilder :=
  match s.anim_stack with
  | [] => none
  | e :: rest =>
    match s.last_axis with
    | none => none
    | some ax =>
      match lookupRot e.animation.rotations ax with
      | none => none
      | some l =>
        let a := e.animation
        let a' :=
          { a with
              rotations := updateRot a.rotations ax (l ++ [degrees])
              xp_dataref := { a.xp_dataref with values := a.xp_dataref.values ++ [value] } }
        some { s with anim_stack := { e with animation := a' } :: rest }

/-- The `ANIM_keyframe_loop` case: set the loop period on the current
dataref (`AttributeError`, i.e. `none`, when no frame is open). -/
def cmdLoop (s : ImpCommandBuilder) (loop : ℚ) : Option ImpCommandBuilder :=
  match s.anim_stack with
  | [] => none
  | e :: rest =>
    let a := e.animation
    let a' := { a with xp_dataref := { a.xp_dataref with loop := loop } }
    some { s with anim_stack := { e with animation := a' } :: rest }

/-- The `ANIM_end` case: pop the innermost open-count and pop that many
frames (`IndexError`, i.e. `none`, when no count is recorded or the stack
runs out mid-loop). -/
def cmdAnimEnd (s : ImpCommandBuilder) : Option ImpCommandBuilder :=
  match s.anim_count with
  | [] => none
  | c :: rest =>
    if c ≤ s.anim_stack.length then
      some { s with anim_stack := s.anim_stack.drop c, anim_count := rest }
    else none

/-- The `VT` case: `VT(*args)` requires exactly 8 arguments (`TypeError`,
i.e. `none`, otherwise) and appends the coerced record. -/
def cmdVT (s : ImpCommandBuilder) (args : List PyVal) :
    Option ImpCommandBuilder :=
  match args with
  | [a, b, c, d, e, f, g, h] =>
    some { s with
            vt_table :=
              { s.vt_table with
                  vertices := s.vt_table.vertices ++ [VT.mkPost a b c d e f g h] } }
  | _ => none

/-- Embeds `ImpCommandBuilder.build_cmd`: the directive dispatcher. -/
def build_cmd (s : ImpCommandBuilder) : Directive → Option ImpCommandBuilder
  | .VT args => cmdVT s args
  | .IDX i =>
    some { s with vt_table := { s.vt_table with idxes := s.vt_table.idxes ++ [i] } }
  | .IDX10 idxs =>
    some { s with vt_table := { s.vt_table with idxes := s.vt_table.idxes ++ idxs } }
  | .TRIS start_idx count name_hint => cmdTRIS s start_idx count name_hint
  | .ANIM_begin => some { s with anim_count := 0 :: s.anim_count }
  | .ANIM_end => cmdAnimEnd s
  | .ANIM_trans_begin path => cmdTransBegin s path
  | .ANIM_trans_key value location => cmdTransKey s value location
  | .ANIM_trans_end => some s
  | .ANIM_hide v1 v2 path => cmdHideShow s ANIM_TYPE_HIDE v1 v2 path
  | .ANIM_show v1 v2 path => cmdHideShow s ANIM_TYPE_SHOW v1 v2 path
  | .ANIM_rotate_begin axis path => cmdRotateBegin s axis path
  | .ANIM_rotate_key value degrees => cmdRotateKey s value degrees
  | .ANIM_rotate_end => some { s with last_axis := none }
  | .ANIM_keyframe_loop loop => cmdLoop s loop
  | .unknown => some s

/-- Run a directive stream from a given state; an exception in any directive
aborts the parse. -/
def runStream (s : ImpCommandBuilder) : List Directive → Option ImpCommandBuilder
  | [] => some s
  | d :: ds =>
    match build_cmd s d with
    | none => none
    | some s' => runStream s' ds

/-- Process a whole stream on a fresh builder. -/
def processStream (ds : List Directive) : Option ImpCommandBuilder :=
  runStream initState ds

/-- The inner helper `recompose_rotation` of `IntermediateAnimation.apply_animation`:
read, for keyframe index `i`, the angle sequence for each of the three unit
axes from the `rotations` mapping — a plain dict read, so an axis that was
never used raises `KeyError` (modelled `none`), and an index past the
end of a sequence raises `IndexError` — and combine them into one vector. -/
def recompose_rotation (a : IntermediateAnimation) (i : ℕ) : Option Vec3 := do
  let xs ← lookupRot a.rotations ⟨1, 0, 0⟩
  let xv ← xs.get? i
  let ys ← lookupRot a.rotations ⟨0, 1, 0⟩
  let yv ← ys.get? i
  let zs ← lookupRot a.rotations ⟨0, 0, 1⟩
  let zv ← zs.get? i
  pure ⟨xv, yv, zv⟩

/-- Embeds `test_creation_helpers.KeyframeInfo` — modelled from the spec: one
keyframe-track request handed to the external scene materializer (the helper
lives outside `src/`; its shape is fixed by call sites in the builder). -/
structure KeyframeInfo where
  idx : ℕ
  dataref_path : String
  dataref_anim_type : String
  dataref_value : Option ℚ := none
  dataref_show_hide_v1 : Option ℚ := none
  dataref_show_hide_v2 : Option ℚ := none
  location : Option Vec3 := none
  rotation : Option Vec3 := none
deriving DecidableEq, Repr

/-- Embeds `IntermediateAnimation.apply_animation`: for a transform-kind dataref,
one keyframe per entry of `values` (frame indices starting at 1), taking
`locations[i]` when any location was recorded (`IndexError` if the list is
shorter) and the recomposed rotation when any rotation was recorded;
otherwise a single show/hide keyframe. -/
def apply_animation (a : IntermediateAnimation) : Option (List KeyframeInfo) :=
  if a.xp_dataref.anim_type = ANIM_TYPE_TRANSFORM then
    (List.range a.xp_dataref.values.length).mapM (fun i => do
      let value ← a.xp_dataref.values.get? i
      let loc ←
        if a.locations.isEmpty then some none
        else (a.locations.get? i).map some
      let rot ←
        if a.rotations.isEmpty then some none
        else (recompose_rotation a i).map some
      pure { idx := i + 1
             dataref_path := a.xp_dataref.path
             dataref_anim_type := a.xp_dataref.anim_type
             dataref_value := some value
             location := loc
             rotation := rot })
  else
    some [{ idx := 1
            dataref_path := a.xp_dataref.path
            dataref_anim_type := a.xp_dataref.anim_type
            dataref_show_hide_v1 := some a.xp_dataref.show_hide_v1
            dataref_show_hide_v2 := some a.xp_dataref.show_hide_v2 }]

/-- Models the Python slice `l[a : b]` for non-negative bounds: take to the upper bound,
drop the lower — clamping silently at the list length, never failing. -/
def pySlice {α : Type} (l : List α) (a b : ℕ) : List α :=
  (l.take b).drop a

/-- Successive runs of at most 3 elements (`range(0, len, 3)` chunking; the
final run may be shorter). -/
def chunk3 {α : Type} : List α → List (List α)
  | [] => []
  | [a] => [[a]]
  | [a, b] => [[a, b]]
  | a :: b :: c :: rest => [a, b, c] :: chunk3 rest

/-- The face list of `IntermediateDatablock.build_mesh`: each index run of
the sliced table is reversed (`[::-1]`, reversing the winding order) and
rebased by subtracting `start_idx`. -/
def build_faces (start_idx : ℕ) (mesh_idxes : List ℤ) : List (List ℤ) :=
  (chunk3 mesh_idxes).map (fun ch => ch.reverse.map (fun i => i - (start_idx : ℤ)))

/-- One materialization request to the external scene API. -/
inductive SceneReq where
  | createEmpty (name : String) (parent : Option String)
  | createMesh (name : String) (parent : Option String)
      (vertices : List VT) (faces : List (List ℤ))
  | keyframes (infos : List KeyframeInfo)
deriving DecidableEq, Repr

/-- Embeds `IntermediateDatablock.build_mesh`: slice the index and vertex tables at
`[start_idx : start_idx + count]` (Python slices clamp, they never raise),
build the reversed-winding faces, then drop the parent reference when it is
the never-materialized `"ROOT"` (mutating the block in place; reading
`.parent` off an already-dropped `None` parent raises `AttributeError`, and
slicing with `None` bounds raises `TypeError` — both modelled `none`). -/
def build_mesh (b : IntermediateDatablock) (vt : VTTable) :
    Option (IntermediateDatablock × SceneReq) :=
  match b.start_idx, b.count with
  | some start_idx, some count =>
    let mesh_idxes := pySlice vt.idxes start_idx (start_idx + count)
    let vertices := pySlice vt.vertices start_idx (start_idx + count)
    let faces := build_faces start_idx mesh_idxes
    match b.datablock_info.parent_info with
    | none => none
    | some pinfo =>
      let info :=
        if pinfo.parent = "ROOT" then { b.datablock_info with parent_info := none }
        else b.datablock_info
      let b' := { b with datablock_info := info }
      some (b', .createMesh info.name (info.parent_info.map (fun p => p.parent)) vertices faces)
  | _, _ => none

/-- One iteration of the finalization loop: create an empty or mesh object
for the block and apply each of its animations.  A block of any other kind
with animations to apply would use an unassigned variable (`NameError`,
modelled `none`); the builder only ever creates `"EMPTY"`/`"MESH"` blocks. -/
def finalizeBlock (vt : VTTable) (b : IntermediateDatablock) :
    Option (IntermediateDatablock × List SceneReq) :=
  if b.datablock_info.datablock_type = "EMPTY" then
    match b.animations_to_apply.mapM apply_animation with
    | none => none
    | some ks =>
      some (b, .createEmpty b.datablock_info.name
              (b.datablock_info.parent_info.map (fun p => p.parent)) :: ks.map .keyframes)
  else if b.datablock_info.datablock_type = "MESH" then
    match build_mesh b vt with
    | none => none
    | some (b', req) =>
      match b'.animations_to_apply.mapM apply_animation with
      | none => none
      | some ks => some (b', req :: ks.map .keyframes)
  else if b.animations_to_apply.isEmpty then some (b, [])
  else none

/-- Finalize each block of `self._blocks[1:]` in insertion order, threading
the in-place mutations `build_mesh` makes to the blocks. -/
def finalizeBlocks (vt : VTTable) :
    List IntermediateDatablock → Option (List IntermediateDatablock × List SceneReq)
  | [] => some ([], [])
  | b :: rest =>
    match finalizeBlock vt b with
    | none => none
    | some (b', reqs) =>
      match finalizeBlocks vt rest with
      | none => none
      | some (rest', reqs') => some (b' :: rest', reqs ++ reqs')

/-- Embeds `ImpCommandBuilder.finalize_intermediate_blocks`: walk the block list in
insertion order, skipping the synthetic root (`self._blocks[1:]`), emit the
materialization requests, and return with the (not drained, possibly
mutated) block list still on the builder. -/
def finalize_intermediate_blocks (s : ImpCommandBuilder) :
    Option (List SceneReq × ImpCommandBuilder) :=
  match s.blocks with
  | [] => some ([], s)
  | root :: rest =>
    match finalizeBlocks s.vt_table rest with
    | none => none
    | some (rest', reqs) => some (reqs, { s with blocks := root :: rest' })

/-- The stack invariant behind the balanced-stream property: the frame stack
depth always equals the sum of the per-level open-counts. -/
def stackInv (s : ImpCommandBuilder) : Prop :=
  s.anim_stack.length = s.anim_count.sum

/-- The C1 directive stream: `begin; begin-transform; end-transform;
begin-rotation(X); rotation-keyframe; end-rotation; end`. -/
def c1Stream : List Directive :=
  [.ANIM_begin, .ANIM_trans_begin "dref", .ANIM_trans_end,
   .ANIM_rotate_begin ⟨1, 0, 0⟩ "dref", .ANIM_rotate_key 0 10,
   .ANIM_rotate_end, .ANIM_end]

/-- The part of `c1Stream` before the begin-rotation directive. -/
def c1Head : List Directive :=
  [.ANIM_begin, .ANIM_trans_begin "dref", .ANIM_trans_end]

/-- The C2 directive stream: a bare translate animation with two keyframes and
no geometry. -/
def c2Stream : List Directive :=
  [.ANIM_begin, .ANIM_trans_begin "dataref/x",
   .ANIM_trans_key 0 ⟨0, 0, 0⟩, .ANIM_trans_key 1 ⟨1, 2, 3⟩,
   .ANIM_trans_end, .ANIM_end]

/-- The part of `c2Stream` up to (and including) the end-transform directive, while the
animation frame is still on the stack. -/
def c2Head : List Directive :=
  [.ANIM_begin, .ANIM_trans_begin "dataref/x",
   .ANIM_trans_key 0 ⟨0, 0, 0⟩, .ANIM_trans_key 1 ⟨1, 2, 3⟩,
   .ANIM_trans_end]

/-- The C3 recorded animation state: rotation keyframes `[10]` on axis X and
`[20]` on axis Y, nothing on axis Z. -/
def c3Anim : IntermediateAnimation :=
  { rotations := [(⟨1, 0, 0⟩, [10]), (⟨0, 1, 0⟩, [20])] }

/-- The parent datablock a `TRIS` directive resolves: the bound node of the
next-enclosing frame, or the synthetic root when there is none. -/
def c4Parent (rest : List AnimBoneStackEntry) : IntermediateDatablock :=
  match rest with
  | [] => rootBlock
  | e2 :: _ => e2.inter_datablock.getD rootBlock

/-- The mesh node the first `TRIS` after an open unbound frame creates (it
carries the animation of the frame). -/
def c4B1 (e : AnimBoneStackEntry) (rest : List AnimBoneStackEntry)
    (a c : ℕ) (nh : String) : IntermediateDatablock :=
  trisBlock (c4Parent rest).datablock_info.name [e.animation] a c nh

/-- The mesh node a subsequent `TRIS` at the same level creates (no
animation attached). -/
def c4B2 (rest : List AnimBoneStackEntry) (a c : ℕ) (nh : String) :
    IntermediateDatablock :=
  trisBlock (c4Parent rest).datablock_info.name [] a c nh

/-- The state after the first `TRIS`: node appended and bound to the top
frame. -/
def c4S1 (s : ImpCommandBuilder) (e : AnimBoneStackEntry)
    (rest : List AnimBoneStackEntry) (a c : ℕ) (nh : String) :
    ImpCommandBuilder :=
  { s with
      blocks := s.blocks ++ [c4B1 e rest a c nh]
      anim_stack := { e with inter_datablock := some (c4B1 e rest a c nh) } :: rest }

/-- The state after the second `TRIS`: a sibling appended, stack untouched. -/
def c4S2 (s : ImpCommandBuilder) (e : AnimBoneStackEntry)
    (rest : List AnimBoneStackEntry) (a1 c1 : ℕ) (nh1 : String)
    (a2 c2 : ℕ) (nh2 : String) : ImpCommandBuilder :=
  { c4S1 s e rest a1 c1 nh1 with
      blocks := (c4S1 s e rest a1 c1 nh1).blocks ++ [c4B2 rest a2 c2 nh2] }

/-- A fresh unbound stack entry (for concrete instantiations). -/
def c4we : AnimBoneStackEntry :=
  { animation := {}, inter_datablock := none }

/-- A builder whose stack holds one open, unbound frame. -/
def c4ws : ImpCommandBuilder :=
  { initState with anim_stack := [c4we] }

/-- The C6 demonstration stream: one block holding one translate animation. -/
def c6Demo : List Directive :=
  [.ANIM_begin, .ANIM_trans_begin "d", .ANIM_trans_key 0 ⟨0, 0, 0⟩, .ANIM_end]

/-- The final builder state of `c6Demo`. -/
def c6DemoState : ImpCommandBuilder :=
  (processStream c6Demo).getD initState

/-- An all-zero vertex record. -/
def vt0 : VT :=
  VT.mkPost (.num 0) (.num 0) (.num 0) (.num 0) (.num 0) (.num 1) (.num 0) (.num 0)

/-- The C7 mesh node: geometry range `(1, 6)` against a 3-entry table, so
`start + count = 7` exceeds the table bounds. -/
def c7Block : IntermediateDatablock :=
  { datablock_info := { datablock_type := "MESH", name := "m", parent_info := some ⟨"p"⟩ }
    start_idx := some 1
    count := some 6
    animations_to_apply := [] }

/-- The C7 vertex/index table: 3 vertices, 3 indices. -/
def c7VT : VTTable :=
  { vertices := [vt0, vt0, vt0], idxes := [0, 1, 2] }

/-- The C8 directive stream: a nested translate animation, so the lazy empty
node materializes and survives to finalization. -/
def c8Stream : List Directive :=
  [.ANIM_begin, .ANIM_trans_begin "dr", .ANIM_trans_key 0 ⟨0, 0, 0⟩,
   .ANIM_trans_begin "dr2", .ANIM_end]

/-- The builder state after parsing `c8Stream`. -/
def c8State : ImpCommandBuilder :=
  (processStream c8Stream).getD initState

/-- The (requests, state) pair the first finalization of `c8State` yields. -/
def c8Out : List SceneReq × ImpCommandBuilder :=
  (finalize_intermediate_blocks c8State).getD ([], initState)

/-- The empty node `make_empty_as_needed` creates for an unbound top frame
`e`: parented to the synthetic root. -/
def c9Empty (e : AnimBoneStackEntry) : IntermediateDatablock :=
  { datablock_info :=
      { datablock_type := "EMPTY"
        name := "next_empty_name"
        parent_info := some ⟨"ROOT"⟩ }
    start_idx := none
    count := none
    animations_to_apply := [e.animation] }

/-- A bound datablock for the concrete C9 instantiation. -/
def c9BoundBlock : IntermediateDatablock :=
  trisBlock "ROOT" [] 0 3 "bound"

/-- An unbound stack entry for the concrete C9 instantiation. -/
def c9we : AnimBoneStackEntry :=
  { animation := {}, inter_datablock := none }

/-- A builder whose top frame is unbound while the enclosing frame below it
has a bound node. -/
def c9ws : ImpCommandBuilder :=
  { initState with
      anim_stack := [c9we, { animation := {}, inter_datablock := some c9BoundBlock }] }

theorem make_empty_stack_length (s : ImpCommandBuilder) :
    (make_empty_as_needed s).anim_stack.length = s.anim_stack.length := by
  unfold make_empty_as_needed
  cases h : s.anim_stack with
  | nil => simp [h]
  | cons e rest =>
    by_cases he : e.inter_datablock.isSome <;> simp [he, h]

theorem make_empty_anim_count (s : ImpCommandBuilder) :
    (make_empty_as_needed s).anim_count = s.anim_count := by
  unfold make_empty_as_needed
  cases h : s.anim_stack with
  | nil => simp [h]
  | cons e rest =>
    by_cases he : e.inter_datablock.isSome <;> simp [he, h]

theorem build_cmd_inv (d : Directive) (s s' : ImpCommandBuilder)
    (h : build_cmd s d = some s') (hi : stackInv s) : stackInv s' := by
  unfold stackInv at *
  cases d with
  | VT args =>
    simp only [build_cmd, cmdVT] at h
    split at h
    · obtain rfl := Option.some.inj h
      exact hi
    · exact absurd h (by simp)
  | IDX i =>
    simp only [build_cmd] at h
    obtain rfl := Option.some.inj h
    exact hi
  | IDX10 idxs =>
    simp only [build_cmd] at h
    obtain rfl := Option.some.inj h
    exact hi
  | TRIS a c nh =>
    simp only [build_cmd, cmdTRIS] at h
    split at h
    · exact absurd h (by simp)
    · split at h <;> obtain rfl := Option.some.inj h
      · cases hs : s.anim_stack with
        | nil => simpa [hs] using hi
        | cons e rest => simpa [hs] using hi
      · exact hi
  | ANIM_begin =>
    simp only [build_cmd] at h
    obtain rfl := Option.some.inj h
    simpa using hi
  | ANIM_end =>
    simp only [build_cmd, cmdAnimEnd] at h
    split at h
    · exact absurd h (by simp)
    · rename_i c rest hc
      split at h
      · obtain rfl := Option.some.inj h
        simp only [List.length_drop]
        rw [hc] at hi
        simp only [List.sum_cons] at hi
        simp only [List.sum_cons] at *
        omega
      · exact absurd h (by simp)
  | ANIM_trans_begin path =>
    simp only [build_cmd, cmdTransBegin] at h
    rcases hc : (make_empty_as_needed s).anim_count with _ | ⟨c, rest⟩
    · rw [hc] at h
      exact absurd h (by simp)
    · rw [hc] at h
      obtain rfl := Option.some.inj h
      have hl := make_empty_stack_length s
      have hcnt := make_empty_anim_count s
      rw [hcnt] at hc
      rw [hc] at hi
      simp only [List.length_cons, List.sum_cons, hl] at *
      omega
  | ANIM_trans_key v loc =>
    simp only [build_cmd, cmdTransKey] at h
    split at h
    · exact absurd h (by simp)
    · rename_i e rest hs
      obtain rfl := Option.some.inj h
      simpa [hs] using hi
  | ANIM_trans_end =>
    simp only [build_cmd] at h
    obtain rfl := Option.some.inj h
    exact hi
  | ANIM_hide v1 v2 path =>
    simp only [build_cmd, cmdHideShow] at h
    split at h
    · exact absurd h (by simp)
    · rename_i e rest hs
      obtain rfl := Option.some.inj h
      simpa [hs] using hi
  | ANIM_show v1 v2 path =>
    simp only [build_cmd, cmdHideShow] at h
    split at h
    · exact absurd h (by simp)
    · rename_i e rest hs
      obtain rfl := Option.some.inj h
      simpa [hs] using hi
  | ANIM_rotate_begin axis path =>
    simp only [build_cmd, cmdRotateBegin] at h
    exact absurd h (by simp)
  | ANIM_rotate_key v deg =>
    simp only [build_cmd, cmdRotateKey] at h
    split at h
    · exact absurd h (by simp)
    · rename_i e rest hs
      split at h
      · exact absurd h (by simp)
      · split at h
        · exact absurd h (by simp)
        · obtain rfl := Option.some.inj h
          simpa [hs] using hi
  | ANIM_rotate_end =>
    simp only [build_cmd] at h
    obtain rfl := Option.some.inj h
    exact hi
  | ANIM_keyframe_loop l =>
    simp only [build_cmd, cmdLoop] at h
    split at h
    · exact absurd h (by simp)
    · rename_i e rest hs
      obtain rfl := Option.some.inj h
      simpa [hs] using hi
  | unknown =>
    simp only [build_cmd] at h
    obtain rfl := Option.some.inj h
    exact hi

theorem runStream_inv (ds : List Directive) (s s' : ImpCommandBuilder)
    (h : runStream s ds = some s') (hi : stackInv s) : stackInv s' := by
  induction ds generalizing s with
  | nil =>
    simp only [runStream] at h
    obtain rfl := Option.some.inj h
    exact hi
  | cons d ds ih =>
    simp only [runStream] at h
    split at h
    · exact absurd h (by simp)
    · rename_i s1 h1
      exact ih s1 h (build_cmd_inv d s s1 h1 hi)

/-- C6: for every directive stream the builder processes to completion with
balanced begin/end block markers (all per-level open-counts consumed, i.e.
the open-count stack is empty again), the animation frame stack depth is 0
before the first directive and 0 after the last. -/
theorem stack_depth_balanced (ds : List Directive) (s' : ImpCommandBuilder)
    (h1 : processStream ds = some s') (h2 : s'.anim_count = []) :
    initState.anim_stack.length = 0 ∧ s'.anim_stack.length = 0 := by
  refine ⟨rfl, ?_⟩
  have hinv : stackInv s' := runStream_inv ds initState s' h1 rfl
  unfold stackInv at hinv
  rw [h2] at hinv
  simpa using hinv

/-- Witness for C6: the stream `begin; begin-transform; transform-keyframe;
end` is balanced and leaves the frame stack empty. -/
theorem stack_depth_balanced_witness :
    initState.anim_stack.length = 0 ∧ c6DemoState.anim_stack.length = 0 :=
  stack_depth_balanced c6Demo c6DemoState (by decide) (by decide)

/-- C1: the claim expects the directive stream `begin-block; begin-transform;
end-transform; begin-rotation(X); rotation-keyframe; end-rotation; end-block`
to reach its closing end-block with a per-level open-count of 2 and pop
exactly 2 frames; on the code the begin-rotation directive instead aborts the
parse (`self._current_animation.xp_dataref.append(...)` is called on a
single `IntermediateDataref`, which has no `append`, raising
`AttributeError`), after the first three directives left one frame and an
open-count of 1 — and no second frame is ever pushed even though the count
would be incremented. -/
theorem c1_rotate_begin_aborts :
    processStream c1Stream = none ∧
    (runStream initState c1Head).map
      (fun s => (s.anim_stack.length, s.anim_count)) = some (1, [1]) ∧
    (runStream initState c1Head).bind
      (fun s => build_cmd s (.ANIM_rotate_begin ⟨1, 0, 0⟩ "dref")) = none := by
  refine ⟨by decide, by decide, by decide⟩

/-- C2 counterexample: the stream `ANIM_begin; ANIM_trans_begin("dataref/x");
ANIM_trans_key(0, loc0); ANIM_trans_key(1, loc1); ANIM_trans_end; ANIM_end`
on a fresh builder yields zero empty nodes besides the synthetic root, not
exactly one: at the only begin-transform directive the frame stack is still
empty (begin-block only records an open-count), so `make_empty_as_needed`
creates nothing. -/
theorem c2_counterexample :
    (processStream c2Stream).map
      (fun s => ((s.blocks.drop 1).filter
        (fun b => b.datablock_info.datablock_type == "EMPTY")).length) = some 0 := by
  decide

/-- C2 (amended): the stream is processed without error and its dataref does
record 2 keyframe values and 2 translations while the frame is open, but the
resulting node list holds no node besides the synthetic root (the lazy empty
node is only created when a begin-transform arrives while the frame stack is
already non-empty with an unbound top frame), so the animation is attached
to no node. -/
theorem c2_amended_no_node :
    (processStream c2Stream).map (fun s => s.blocks) = some [rootBlock] ∧
    (runStream initState c2Head).map
      (fun s => s.anim_stack.head?.map (fun e =>
        (e.animation.locations.length, e.animation.xp_dataref.values.length)))
      = some (some (2, 2)) := by
  refine ⟨by decide, by decide⟩

/-- C3: the claim expects finalization to recompose keyframe 0 of rotation
keyframes `degrees=[10]` on axis `(1,0,0)` and `degrees=[20]` on axis
`(0,1,0)` into `(10, 20, 0)`, reading 0 for the never-used axis `(0,0,1)`;
the code instead indexes the rotations mapping at all three unit axes
unconditionally, so the never-used Z axis raises `KeyError` and finalization
aborts rather than producing `(10, 20, 0)`. -/
theorem c3_recompose_missing_axis :
    lookupRot c3Anim.rotations ⟨1, 0, 0⟩ = some [10] ∧
    lookupRot c3Anim.rotations ⟨0, 1, 0⟩ = some [20] ∧
    lookupRot c3Anim.rotations ⟨0, 0, 1⟩ = none ∧
    recompose_rotation c3Anim 0 = none ∧
    recompose_rotation c3Anim 0 ≠ some ⟨10, 20, 0⟩ := by
  refine ⟨by decide, by decide, by decide, by decide, by decide⟩

/-- C10: appending a vertex record never fails on malformed scalar
arguments: for every 8-field geometry-vertex directive the builder succeeds,
appending a record whose fields are each coerced to float where possible,
and a field whose value cannot be coerced is kept with its original
(unconverted) value rather than raising an error. -/
theorem vt_append_total (s : ImpCommandBuilder) (v1 v2 v3 v4 v5 v6 v7 v8 : PyVal) :
    build_cmd s (.VT [v1, v2, v3, v4, v5, v6, v7, v8]) =
      some { s with
              vt_table :=
                { s.vt_table with
                    vertices := s.vt_table.vertices ++ [VT.mkPost v1 v2 v3 v4 v5 v6 v7 v8] } } ∧
    (∀ v : PyVal, postInitField v = ((pyFloat v).map PyVal.num).getD v) := by
  refine ⟨rfl, ?_⟩
  intro v
  unfold postInitField
  cases pyFloat v <;> rfl

/-- C7 counterexample: a mesh node whose geometry range `(1, 6)` exceeds a
3-entry table does not fail with a range error at finalization slicing; the
slice silently clamps to 2 entries (shorter than the requested 6) and
`build_mesh` succeeds. -/
theorem c7_counterexample :
    c7Block.start_idx = some 1 ∧ c7Block.count = some 6 ∧
    1 + 6 > c7VT.idxes.length ∧
    (build_mesh c7Block c7VT).isSome = true ∧
    (pySlice c7VT.idxes 1 (1 + 6)).length = 2 := by
  refine ⟨by decide, by decide, by decide, by decide, by decide⟩

/-- C7 (amended): for every mesh node whose geometry range `(start, count)`
satisfies `start + count >` the table length (with `start` itself in
bounds), slicing the table at finalization silently returns the clamped
subrange of length `length - start`, which is strictly shorter than the
requested `count` — no range error is raised. -/
theorem pySlice_clamps {α : Type} (l : List α) (st ct : ℕ)
    (h1 : st ≤ l.length) (h2 : l.length < st + ct) :
    (pySlice l st (st + ct)).length = l.length - st ∧ l.length - st < ct := by
  constructor
  · simp only [pySlice, List.length_drop, List.length_take]
    omega
  · omega

/-- Witness for C7 (amended): the 3-entry index table sliced at range
`(1, 6)` yields 2 entries, strictly fewer than the 6 requested. -/
theorem pySlice_clamps_witness :
    (pySlice c7VT.idxes 1 (1 + 6)).length = c7VT.idxes.length - 1 ∧
    c7VT.idxes.length - 1 < 6 :=
  pySlice_clamps c7VT.idxes 1 6 (by decide) (by decide)

theorem finalizeBlock_empty_eq (vt : VTTable) (b : IntermediateDatablock)
    (hb : b.datablock_info.datablock_type = "EMPTY")
    (b' : IntermediateDatablock) (reqs : List SceneReq)
    (h : finalizeBlock vt b = some (b', reqs)) : b' = b := by
  unfold finalizeBlock at h
  rw [if_pos hb] at h
  cases hm : b.animations_to_apply.mapM apply_animation with
  | none => rw [hm] at h; exact absurd h (by simp)
  | some ks =>
    rw [hm] at h
    simp only [Option.some.injEq, Prod.mk.injEq] at h
    exact h.1.symm

theorem finalizeBlocks_length (vt : VTTable) (bl bl' : List IntermediateDatablock)
    (reqs : List SceneReq) (h : finalizeBlocks vt bl = some (bl', reqs)) :
    bl'.length = bl.length := by
  induction bl generalizing bl' reqs with
  | nil =>
    simp only [finalizeBlocks, Option.some.injEq, Prod.mk.injEq] at h
    obtain ⟨rfl, rfl⟩ := h
    rfl
  | cons b rest ih =>
    unfold finalizeBlocks at h
    cases h1 : finalizeBlock vt b with
    | none => rw [h1] at h; exact absurd h (by simp)
    | some pr =>
      obtain ⟨b', reqsb⟩ := pr
      rw [h1] at h
      cases h2 : finalizeBlocks vt rest with
      | none => rw [h2] at h; exact absurd h (by simp)
      | some pr2 =>
        obtain ⟨rest', reqs2⟩ := pr2
        rw [h2] at h
        simp only [Option.some.injEq, Prod.mk.injEq] at h
        obtain ⟨rfl, rfl⟩ := h
        simp [ih rest' reqs2 h2]

theorem finalizeBlocks_empties (vt : VTTable) (bl bl' : List IntermediateDatablock)
    (reqs : List SceneReq)
    (hall : ∀ b ∈ bl, b.datablock_info.datablock_type = "EMPTY")
    (h : finalizeBlocks vt bl = some (bl', reqs)) : bl' = bl := by
  induction bl generalizing bl' reqs with
  | nil =>
    simp only [finalizeBlocks, Option.some.injEq, Prod.mk.injEq] at h
    obtain ⟨rfl, rfl⟩ := h
    rfl
  | cons b rest ih =>
    unfold finalizeBlocks at h
    cases h1 : finalizeBlock vt b with
    | none => rw [h1] at h; exact absurd h (by simp)
    | some pr =>
      obtain ⟨b', reqsb⟩ := pr
      rw [h1] at h
      cases h2 : finalizeBlocks vt rest with
      | none => rw [h2] at h; exact absurd h (by simp)
      | some pr2 =>
        obtain ⟨rest', reqs2⟩ := pr2
        rw [h2] at h
        simp only [Option.some.injEq, Prod.mk.injEq] at h
        obtain ⟨rfl, rfl⟩ := h
        have hb' : b' = b :=
          finalizeBlock_empty_eq vt b (hall b (List.mem_cons_self b rest)) b' reqsb h1
        have hr : rest' = rest :=
          ih rest' reqs2 (fun x hx => hall x (List.mem_cons_of_mem b hx)) h2
        rw [hb', hr]

/-- C8 (amended): finalizing a second time without re-parsing is silently
accepted, not rejected: the node list is not drained by finalization (its
length is preserved), and for a builder whose materialized nodes are all
empties — e.g. any state reached without geometry directives — a second
finalization succeeds and produces exactly the same materialization
requests again. -/
theorem finalize_not_drained (s : ImpCommandBuilder) (reqs : List SceneReq)
    (s' : ImpCommandBuilder)
    (h : finalize_intermediate_blocks s = some (reqs, s')) :
    s'.blocks.length = s.blocks.length ∧
    ((∀ b ∈ s.blocks.drop 1, b.datablock_info.datablock_type = "EMPTY") →
      finalize_intermediate_blocks s' = some (reqs, s')) := by
  unfold finalize_intermediate_blocks at h
  split at h
  · rename_i heq
    simp only [Option.some.injEq, Prod.mk.injEq] at h
    obtain ⟨rfl, rfl⟩ := h
    refine ⟨rfl, fun _ => ?_⟩
    unfold finalize_intermediate_blocks
    simp only [heq]
  · rename_i root rest heq
    split at h
    · exact absurd h (by simp)
    · rename_i rest' reqs2 h2
      simp only [Option.some.injEq, Prod.mk.injEq] at h
      obtain ⟨rfl, rfl⟩ := h
      constructor
      · simp [heq, finalizeBlocks_length s.vt_table rest rest' reqs2 h2]
      · intro hall
        rw [heq] at hall
        simp only [List.drop_one, List.tail_cons] at hall
        have hr : rest' = rest :=
          finalizeBlocks_empties s.vt_table rest rest' reqs2 hall h2
        have hs : ({ s with blocks := root :: rest' } : ImpCommandBuilder) = s := by
          rw [hr, ← heq]
        rw [hs]
        unfold finalize_intermediate_blocks
        simp only [heq, h2]
        rw [hs]

/-- C8 counterexample: a builder holding one lazily-created empty node (from
the stream `begin; trans-begin; trans-key; trans-begin; end`) finalizes to a
non-empty request list while leaving its node list untouched, so calling the
finalizer a second time without re-parsing succeeds and silently
materializes the very same requests again instead of failing cleanly. -/
theorem c8_counterexample :
    (processStream c8Stream).isSome = true ∧
    finalize_intermediate_blocks c8State = some (c8Out.1, c8State) ∧
    (finalize_intermediate_blocks c8State).bind
      (fun p => finalize_intermediate_blocks p.2) = some (c8Out.1, c8State) ∧
    c8Out.1 ≠ [] := by
  refine ⟨by decide, by decide, by decide, by decide⟩

/-- Witness for C8 (amended): applying the theorem to the concrete
finalized builder of `c8Stream`. -/
theorem finalize_not_drained_witness :
    c8State.blocks.length = c8State.blocks.length ∧
    ((∀ b ∈ c8State.blocks.drop 1, b.datablock_info.datablock_type = "EMPTY") →
      finalize_intermediate_blocks c8State = some (c8Out.1, c8State)) :=
  finalize_not_drained c8State c8Out.1 c8State (by decide)

/-- C9: every empty node the lazy-materialization path creates (a
begin-transform arriving while the stack is non-empty and the top frame is
unbound) is parented to the synthetic root, regardless of what the frames
below the top hold: the parent expression re-reads the very binding just
checked to be absent, so its non-root branch is unreachable. -/
theorem lazy_empty_parent_root (s : ImpCommandBuilder) (e : AnimBoneStackEntry)
    (rest : List AnimBoneStackEntry) (h1 : s.anim_stack = e :: rest)
    (h2 : e.inter_datablock = none) :
    make_empty_as_needed s =
      { s with
          anim_stack := { e with inter_datablock := some (c9Empty e) } :: rest
          blocks := s.blocks ++ [c9Empty e] } ∧
    (c9Empty e).datablock_info.parent_info = some ⟨rootBlock.datablock_info.name⟩ := by
  refine ⟨?_, rfl⟩
  unfold make_empty_as_needed
  rw [h1]
  simp [h2, c9Empty, rootBlock]

/-- Witness for C9: the lazy empty is parented to the root even when the
enclosing frame below the top has a bound node. -/
theorem lazy_empty_parent_root_witness :
    make_empty_as_needed c9ws =
      { c9ws with
          anim_stack := { c9we with inter_datablock := some (c9Empty c9we) } ::
            [{ animation := {}, inter_datablock := some c9BoundBlock }]
          blocks := c9ws.blocks ++ [c9Empty c9we] } ∧
    (c9Empty c9we).datablock_info.parent_info = some ⟨rootBlock.datablock_info.name⟩ :=
  lazy_empty_parent_root c9ws c9we
    [{ animation := {}, inter_datablock := some c9BoundBlock }] rfl rfl

/-- C5: every full input index run `[a, b, c]` of the sliced
geometry range of a mesh node is materialized as a face with the reversed vertex order
`[c, b, a]`, rebased by subtracting the start index of the range. -/
theorem build_faces_winding (st : ℕ) (l : List ℤ) (k : ℕ) (a b c : ℤ)
    (ha : l.get? (3 * k) = some a) (hb : l.get? (3 * k + 1) = some b)
    (hc : l.get? (3 * k + 2) = some c) :
    (build_faces st l).get? k = some [c - (st : ℤ), b - (st : ℤ), a - (st : ℤ)] := by
  induction k generalizing l with
  | zero =>
    rcases l with _ | ⟨x, _ | ⟨y, _ | ⟨z, rest⟩⟩⟩
    · exact Option.noConfusion ha
    · exact Option.noConfusion hb
    · exact Option.noConfusion hc
    · obtain rfl : x = a := Option.some.inj ha
      obtain rfl : y = b := Option.some.inj hb
      obtain rfl : z = c := Option.some.inj hc
      rfl
  | succ k ih =>
    rcases l with _ | ⟨x, _ | ⟨y, _ | ⟨z, rest⟩⟩⟩
    · exact Option.noConfusion ha
    · exact Option.noConfusion ha
    · exact Option.noConfusion ha
    · exact ih rest ha hb hc

/-- Witness for C5: the run `[8, 9, 10]` at chunk 1 of a sliced index list
with start index 2 becomes the face `[10-2, 9-2, 8-2]`. -/
theorem build_faces_winding_witness :
    (build_faces 2 [5, 6, 7, 8, 9, 10]).get? 1 =
      some [(10 : ℤ) - (2 : ℕ), (9 : ℤ) - (2 : ℕ), (8 : ℤ) - (2 : ℕ)] :=
  build_faces_winding 2 [5, 6, 7, 8, 9, 10] 1 8 9 10 rfl rfl rfl

/-- C4: when a triangle directive arrives while the top animation frame is
open and unbound, its new mesh node is bound to that frame (exactly once),
and the next triangle directive at the same nesting level appends an
independent sibling mesh node with the same parent without replacing the
already-bound node of the frame. -/
theorem tris_binds_once (s : ImpCommandBuilder) (e : AnimBoneStackEntry)
    (rest : List AnimBoneStackEntry) (a1 c1 a2 c2 : ℕ) (nh1 nh2 : String)
    (h1 : s.anim_stack = e :: rest)
    (h2 : e.inter_datablock = none)
    (h3 : ∀ e2 ∈ rest.head?, e2.inter_datablock.isSome = true) :
    build_cmd s (.TRIS a1 c1 nh1) = some (c4S1 s e rest a1 c1 nh1) ∧
    build_cmd (c4S1 s e rest a1 c1 nh1) (.TRIS a2 c2 nh2)
      = some (c4S2 s e rest a1 c1 nh1 a2 c2 nh2) ∧
    (c4S1 s e rest a1 c1 nh1).anim_stack.head?.map (fun f => f.inter_datablock)
      = some (some (c4B1 e rest a1 c1 nh1)) ∧
    (c4S2 s e rest a1 c1 nh1 a2 c2 nh2).anim_stack
      = (c4S1 s e rest a1 c1 nh1).anim_stack ∧
    (c4B2 rest a2 c2 nh2).datablock_info.parent_info
      = (c4B1 e rest a1 c1 nh1).datablock_info.parent_info := by
  rcases rest with _ | ⟨e2, r2⟩
  · simp [build_cmd, cmdTRIS, c4S1, c4S2, c4B1, c4B2, c4Parent, trisBlock, h1, h2]
  · obtain ⟨db, hdb⟩ := Option.isSome_iff_exists.mp (h3 e2 (by simp))
    simp [build_cmd, cmdTRIS, c4S1, c4S2, c4B1, c4B2, c4Parent, trisBlock, h1, h2, hdb]

/-- Witness for C4: two triangle directives processed on a builder holding
one open, unbound frame. -/
theorem tris_binds_once_witness :
    build_cmd c4ws (.TRIS 0 3 "t1") = some (c4S1 c4ws c4we [] 0 3 "t1") ∧
    build_cmd (c4S1 c4ws c4we [] 0 3 "t1") (.TRIS 3 3 "t2")
      = some (c4S2 c4ws c4we [] 0 3 "t1" 3 3 "t2") ∧
    (c4S1 c4ws c4we [] 0 3 "t1").anim_stack.head?.map (fun f => f.inter_datablock)
      = some (some (c4B1 c4we [] 0 3 "t1")) ∧
    (c4S2 c4ws c4we [] 0 3 "t1" 3 3 "t2").anim_stack
      = (c4S1 c4ws c4we [] 0 3 "t1").anim_stack ∧
    (c4B2 [] 3 3 "t2").datablock_info.parent_info
      = (c4B1 c4we [] 0 3 "t1").datablock_info.parent_info :=
  tris_binds_once c4ws c4we [] 0 3 3 3 "t1" "t2" rfl rfl (by simp)
